import Mathlib

/-!
Shallow embedding of `src/scripts/test-integration.py`: a sequential
integration-test runner for a notification microservice.  Each Python test
function performs at most one HTTP call; the transport is modelled as an
oracle `Request → HttpOutcome` supplied to the functions, and every test
records its tri-state result (`Optional[bool]` in Python becomes
`Option Bool`), the requests it issued and the lines it printed.
-/

namespace NotifTest

/-- JSON-like values: the shape of request payloads and of parsed response
bodies. -/
inductive JsonVal where
  | str (s : String)
  | num (n : Int)
  | bool (b : Bool)
  | null
  | arr (elems : List JsonVal)
  | obj (fields : List (String × JsonVal))

/-- An HTTP response as the script observes it: the status code, the raw
body text (`response.text`), and the result of attempting to parse the body
as JSON — `none` models `response.json()` raising a decode error. -/
structure Response where
  status_code : Nat
  text : String
  json : Option JsonVal

/-- The outcome of one `requests.post` / `requests.get` call: a response, or
an exception (connection failure, DNS failure, timeout) with its message. -/
inductive HttpOutcome where
  | ok (response : Response)
  | exn (msg : String)

/-- One HTTP request the script can issue. -/
inductive Request where
  | post (url : String) (payload : JsonVal) (timeout : Nat)
  | get (url : String) (timeout : Nat)

/-- Configuration, resolved once at startup (lines 14-16 of the source). -/
structure Config where
  SERVICE_URL : String
  CHAT_ID : String
  BOT_TOKEN : String
  deriving Repr, DecidableEq

/-- `os.getenv(name, default)`: the variable when set, else the default. -/
def getenv (env : String → Option String) (name default : String) : String :=
  (env name).getD default

/-- The three configuration constants read at module load. -/
def loadConfig (env : String → Option String) : Config :=
  { SERVICE_URL := getenv env "NOTIFICATION_SERVICE_URL" "https://notifications.statex.cz"
    CHAT_ID := getenv env "TELEGRAM_CHAT_ID" "694579866"
    BOT_TOKEN := getenv env "TELEGRAM_BOT_TOKEN" "" }

/-- One printed console line.  Prints that the claims distinguish are kept
structured: a pretty-printed parsed-JSON dump versus the raw response text. -/
inductive OutLine where
  | line (s : String)
  | passed (status : Nat)
  | failed (status : Nat)
  | jsonDump (v : JsonVal)
  | respText (s : String)
  | errorMsg (s : String)
  | total (passed failed skipped : Nat)

/-- What one test function does when invoked: its return value
(`True` / `False` / `None` in Python becomes `some true` / `some false` /
`none`), the HTTP requests it issued, and the lines it printed. -/
structure TestRun where
  result : Option Bool
  requests : List Request
  output : List OutLine

/-- `c * n` as Python writes `"-" * 50`. -/
def repChar (c : Char) (n : Nat) : String :=
  String.mk (List.replicate n c)

/-- The payload of test 1 (source lines 24-29). -/
def basicPayload (cfg : Config) : JsonVal :=
  JsonVal.obj
    [("channel", JsonVal.str "telegram"),
     ("type", JsonVal.str "custom"),
     ("recipient", JsonVal.str cfg.CHAT_ID),
     ("message", JsonVal.str "🧪 Python test - Basic Telegram notification")]

/-- The POST request of test 1. -/
def basicReq (cfg : Config) : Request :=
  Request.post (cfg.SERVICE_URL ++ "/notifications/send") (basicPayload cfg) 10

/-- `test_basic_telegram` (source lines 19-49). -/
def test_basic_telegram (cfg : Config) (http : Request → HttpOutcome) : TestRun :=
  let header := [OutLine.line "Test 1: Basic Telegram notification",
                 OutLine.line (repChar '-' 50)]
  match http (basicReq cfg) with
  | HttpOutcome.ok response =>
    if response.status_code ∈ [200, 201] then
      match response.json with
      | some result =>
        { result := some true, requests := [basicReq cfg],
          output := header ++ [OutLine.passed response.status_code, OutLine.jsonDump result] }
      | none =>
        { result := some false, requests := [basicReq cfg],
          output := header ++ [OutLine.errorMsg "JSONDecodeError"] }
    else
      { result := some false, requests := [basicReq cfg],
        output := header ++ [OutLine.failed response.status_code,
                             OutLine.respText response.text] }
  | HttpOutcome.exn e =>
    { result := some false, requests := [basicReq cfg],
      output := header ++ [OutLine.errorMsg e] }

/-- The payload of test 2, with the inline keyboard (source lines 57-76). -/
def keyboardPayload (cfg : Config) : JsonVal :=
  JsonVal.obj
    [("channel", JsonVal.str "telegram"),
     ("type", JsonVal.str "custom"),
     ("recipient", JsonVal.str cfg.CHAT_ID),
     ("message", JsonVal.str "🧪 Python test - Message with inline keyboard"),
     ("inlineKeyboard", JsonVal.arr
       [JsonVal.arr
         [JsonVal.obj [("text", JsonVal.str "📊 View Dashboard"),
                       ("url", JsonVal.str "https://statex.ai/dashboard")]],
        JsonVal.arr
         [JsonVal.obj [("text", JsonVal.str "🤖 Test Button"),
                       ("url", JsonVal.str "https://statex.ai")]]])]

/-- The POST request of test 2. -/
def keyboardReq (cfg : Config) : Request :=
  Request.post (cfg.SERVICE_URL ++ "/notifications/send") (keyboardPayload cfg) 10

/-- `test_telegram_with_keyboard` (source lines 52-96). -/
def test_telegram_with_keyboard (cfg : Config) (http : Request → HttpOutcome) : TestRun :=
  let header := [OutLine.line "Test 2: Telegram with inline keyboard",
                 OutLine.line (repChar '-' 50)]
  match http (keyboardReq cfg) with
  | HttpOutcome.ok response =>
    if response.status_code ∈ [200, 201] then
      match response.json with
      | some result =>
        { result := some true, requests := [keyboardReq cfg],
          output := header ++ [OutLine.passed response.status_code, OutLine.jsonDump result] }
      | none =>
        { result := some false, requests := [keyboardReq cfg],
          output := header ++ [OutLine.errorMsg "JSONDecodeError"] }
    else
      { result := some false, requests := [keyboardReq cfg],
        output := header ++ [OutLine.failed response.status_code,
                             OutLine.respText response.text] }
  | HttpOutcome.exn e =>
    { result := some false, requests := [keyboardReq cfg],
      output := header ++ [OutLine.errorMsg e] }

/-- The payload of test 3, with the per-request bot token (source lines
108-114). -/
def botTokenPayload (cfg : Config) : JsonVal :=
  JsonVal.obj
    [("channel", JsonVal.str "telegram"),
     ("type", JsonVal.str "custom"),
     ("recipient", JsonVal.str cfg.CHAT_ID),
     ("message", JsonVal.str "🧪 Python test - With per-request bot token"),
     ("botToken", JsonVal.str cfg.BOT_TOKEN)]

/-- The POST request of test 3. -/
def botTokenReq (cfg : Config) : Request :=
  Request.post (cfg.SERVICE_URL ++ "/notifications/send") (botTokenPayload cfg) 10

/-- `test_telegram_with_bot_token` (source lines 99-134).  Python guards with
`if not BOT_TOKEN:`, and a `str` is falsy exactly when it is empty. -/
def test_telegram_with_bot_token (cfg : Config) (http : Request → HttpOutcome) : TestRun :=
  if cfg.BOT_TOKEN = "" then
    { result := none, requests := [],
      output := [OutLine.line "Test 3: Skipped (no bot token provided)"] }
  else
    let header := [OutLine.line "Test 3: Telegram with per-request bot token",
                   OutLine.line (repChar '-' 50)]
    match http (botTokenReq cfg) with
    | HttpOutcome.ok response =>
      if response.status_code ∈ [200, 201] then
        match response.json with
        | some result =>
          { result := some true, requests := [botTokenReq cfg],
            output := header ++ [OutLine.passed response.status_code, OutLine.jsonDump result] }
        | none =>
          { result := some false, requests := [botTokenReq cfg],
            output := header ++ [OutLine.errorMsg "JSONDecodeError"] }
      else
        { result := some false, requests := [botTokenReq cfg],
          output := header ++ [OutLine.failed response.status_code,
                               OutLine.respText response.text] }
    | HttpOutcome.exn e =>
      { result := some false, requests := [botTokenReq cfg],
        output := header ++ [OutLine.errorMsg e] }

/-- The GET request of test 4, with the shorter 5-unit timeout. -/
def healthReq (cfg : Config) : Request :=
  Request.get (cfg.SERVICE_URL ++ "/health") 5

/-- `test_health_check` (source lines 137-156): only HTTP 200 passes. -/
def test_health_check (cfg : Config) (http : Request → HttpOutcome) : TestRun :=
  let header := [OutLine.line "Test 4: Health check",
                 OutLine.line (repChar '-' 50)]
  match http (healthReq cfg) with
  | HttpOutcome.ok response =>
    if response.status_code = 200 then
      match response.json with
      | some result =>
        { result := some true, requests := [healthReq cfg],
          output := header ++ [OutLine.passed response.status_code, OutLine.jsonDump result] }
      | none =>
        { result := some false, requests := [healthReq cfg],
          output := header ++ [OutLine.errorMsg "JSONDecodeError"] }
    else
      { result := some false, requests := [healthReq cfg],
        output := header ++ [OutLine.failed response.status_code,
                             OutLine.respText response.text] }
  | HttpOutcome.exn e =>
    { result := some false, requests := [healthReq cfg],
      output := header ++ [OutLine.errorMsg e] }

/-- The status label of the per-test summary line (source line 186). -/
def statusStr : Option Bool → String
  | some true => "✅ PASSED"
  | some false => "❌ FAILED"
  | none => "⏭️  SKIPPED"

/-- Everything `main` produces: the named per-test results in run order, the
three tally counts, the process exit code (`sys.exit(1)` on any failure,
normal termination — exit 0 — otherwise), and the console output. -/
structure MainRun where
  results : List (String × Option Bool)
  passed : Nat
  failed : Nat
  skipped : Nat
  exitCode : Nat
  output : List OutLine

/-- `main` (source lines 159-194). -/
def main (cfg : Config) (http : Request → HttpOutcome) : MainRun :=
  let t1 := test_basic_telegram cfg http
  let t2 := test_telegram_with_keyboard cfg http
  let t3 := test_telegram_with_bot_token cfg http
  let t4 := test_health_check cfg http
  let results : List (String × Option Bool) :=
    [("Basic Telegram", t1.result),
     ("Telegram with Keyboard", t2.result),
     ("Telegram with Bot Token", t3.result),
     ("Health Check", t4.result)]
  let passed := results.countP (fun r => r.2 == some true)
  let failed := results.countP (fun r => r.2 == some false)
  let skipped := results.countP (fun r => r.2 == none)
  { results := results
    passed := passed
    failed := failed
    skipped := skipped
    exitCode := if failed > 0 then 1 else 0
    output :=
      [OutLine.line "🧪 Testing Notification Microservice - Telegram Integration",
       OutLine.line (repChar '=' 60),
       OutLine.line ("Service URL: " ++ cfg.SERVICE_URL),
       OutLine.line ("Chat ID: " ++ cfg.CHAT_ID),
       OutLine.line ("Bot Token: " ++ (if cfg.BOT_TOKEN = "" then "Using global" else "Provided")),
       OutLine.line (repChar '=' 60)]
      ++ t1.output ++ t2.output ++ t3.output ++ t4.output
      ++ [OutLine.line (repChar '=' 60), OutLine.line "Test Summary",
          OutLine.line (repChar '=' 60)]
      ++ results.map (fun r => OutLine.line (r.1 ++ ": " ++ statusStr r.2))
      ++ [OutLine.total passed failed skipped]
      ++ (if failed > 0 then [] else [OutLine.line "✅ All tests passed!"]) }

/-! ### Characterisation lemmas

The three send tests share their response-handling block verbatim (source
lines 38-49, 85-96, 123-134); `sendResultOf` is that block's classification,
`healthResultOf` the health-check variant, and the lemmas below relate each
test function to them. -/

/-- Classification of one send response (derived from source lines 38-49). -/
def sendResultOf : HttpOutcome → Option Bool
  | HttpOutcome.ok response =>
    if response.status_code ∈ [200, 201] then
      match response.json with
      | some _ => some true
      | none => some false
    else some false
  | HttpOutcome.exn _ => some false

/-- Classification of the health-check response (source lines 145-156). -/
def healthResultOf : HttpOutcome → Option Bool
  | HttpOutcome.ok response =>
    if response.status_code = 200 then
      match response.json with
      | some _ => some true
      | none => some false
    else some false
  | HttpOutcome.exn _ => some false

lemma test_basic_result (cfg : Config) (http : Request → HttpOutcome) :
    (test_basic_telegram cfg http).result = sendResultOf (http (basicReq cfg)) := by
  cases hh : http (basicReq cfg) with
  | ok response =>
    by_cases h : response.status_code ∈ [200, 201]
    · cases hj : response.json <;> simp [test_basic_telegram, sendResultOf, hh, h, hj]
    · simp [test_basic_telegram, sendResultOf, hh, h]
  | exn e => simp [test_basic_telegram, sendResultOf, hh]

lemma test_keyboard_result (cfg : Config) (http : Request → HttpOutcome) :
    (test_telegram_with_keyboard cfg http).result = sendResultOf (http (keyboardReq cfg)) := by
  cases hh : http (keyboardReq cfg) with
  | ok response =>
    by_cases h : response.status_code ∈ [200, 201]
    · cases hj : response.json <;> simp [test_telegram_with_keyboard, sendResultOf, hh, h, hj]
    · simp [test_telegram_with_keyboard, sendResultOf, hh, h]
  | exn e => simp [test_telegram_with_keyboard, sendResultOf, hh]

lemma test_bot_token_result (cfg : Config) (http : Request → HttpOutcome) :
    (test_telegram_with_bot_token cfg http).result =
      if cfg.BOT_TOKEN = "" then none else sendResultOf (http (botTokenReq cfg)) := by
  by_cases hb : cfg.BOT_TOKEN = ""
  · simp [test_telegram_with_bot_token, hb]
  · cases hh : http (botTokenReq cfg) with
    | ok response =>
      by_cases h : response.status_code ∈ [200, 201]
      · cases hj : response.json <;>
          simp [test_telegram_with_bot_token, sendResultOf, hb, hh, h, hj]
      · simp [test_telegram_with_bot_token, sendResultOf, hb, hh, h]
    | exn e => simp [test_telegram_with_bot_token, sendResultOf, hb, hh]

lemma test_bot_token_requests (cfg : Config) (http : Request → HttpOutcome) :
    (test_telegram_with_bot_token cfg http).requests =
      if cfg.BOT_TOKEN = "" then [] else [botTokenReq cfg] := by
  by_cases hb : cfg.BOT_TOKEN = ""
  · simp [test_telegram_with_bot_token, hb]
  · cases hh : http (botTokenReq cfg) with
    | ok response =>
      by_cases h : response.status_code ∈ [200, 201]
      · cases hj : response.json <;> simp [test_telegram_with_bot_token, hb, hh, h, hj]
      · simp [test_telegram_with_bot_token, hb, hh, h]
    | exn e => simp [test_telegram_with_bot_token, hb, hh]

lemma test_health_result (cfg : Config) (http : Request → HttpOutcome) :
    (test_health_check cfg http).result = healthResultOf (http (healthReq cfg)) := by
  cases hh : http (healthReq cfg) with
  | ok response =>
    by_cases h : response.status_code = 200
    · cases hj : response.json <;> simp [test_health_check, healthResultOf, hh, h, hj]
    · simp [test_health_check, healthResultOf, hh, h]
  | exn e => simp [test_health_check, healthResultOf, hh]

lemma sendResultOf_ne_none (o : HttpOutcome) : sendResultOf o ≠ none := by
  cases o with
  | ok response =>
    by_cases h : response.status_code ∈ [200, 201]
    · cases hj : response.json <;> simp [sendResultOf, h, hj]
    · simp [sendResultOf, h]
  | exn e => simp [sendResultOf]

lemma main_results (cfg : Config) (http : Request → HttpOutcome) :
    (main cfg http).results =
      [("Basic Telegram", (test_basic_telegram cfg http).result),
       ("Telegram with Keyboard", (test_telegram_with_keyboard cfg http).result),
       ("Telegram with Bot Token", (test_telegram_with_bot_token cfg http).result),
       ("Health Check", (test_health_check cfg http).result)] := rfl

lemma main_passed (cfg : Config) (http : Request → HttpOutcome) :
    (main cfg http).passed = (main cfg http).results.countP (fun r => r.2 == some true) := rfl

lemma main_failed (cfg : Config) (http : Request → HttpOutcome) :
    (main cfg http).failed = (main cfg http).results.countP (fun r => r.2 == some false) := rfl

lemma main_skipped (cfg : Config) (http : Request → HttpOutcome) :
    (main cfg http).skipped = (main cfg http).results.countP (fun r => r.2 == none) := rfl

lemma main_exitCode (cfg : Config) (http : Request → HttpOutcome) :
    (main cfg http).exitCode = if (main cfg http).failed > 0 then 1 else 0 := rfl

lemma main_total_mem (cfg : Config) (http : Request → HttpOutcome) :
    OutLine.total (main cfg http).passed (main cfg http).failed (main cfg http).skipped
      ∈ (main cfg http).output := by
  simp [main]

/-- Over any results list, the three tally predicates partition the entries:
their counts sum to the length. -/
lemma countP_tristate (rs : List (String × Option Bool)) :
    rs.countP (fun r => r.2 == some true) + rs.countP (fun r => r.2 == some false)
      + rs.countP (fun r => r.2 == none) = rs.length := by
  induction rs with
  | nil => simp
  | cons a t ih =>
    rcases a with ⟨n, r⟩
    rcases r with _ | b
    · simp [List.countP_cons]; omega
    · cases b <;> simp [List.countP_cons] <;> omega

/-! ### The claims -/

/-- Claim C1: `main` terminates the process with exit code 1 if and only if
at least one of the four recorded outcomes is Failed (`some false`), and with
exit code 0 otherwise; Skipped outcomes (`none`) never make the exit code
non-zero. -/
theorem c1_exit_code_iff_any_failed (cfg : Config) (http : Request → HttpOutcome) :
    ((main cfg http).exitCode = 1 ↔ ∃ r ∈ (main cfg http).results, r.2 = some false)
    ∧ ((main cfg http).exitCode = 0 ↔ ∀ r ∈ (main cfg http).results, r.2 ≠ some false) := by
  have hpos : 0 < (main cfg http).failed ↔ ∃ r ∈ (main cfg http).results, r.2 = some false := by
    rw [main_failed]
    simp [List.countP_pos_iff]
  have hexit1 : (main cfg http).exitCode = 1 ↔ 0 < (main cfg http).failed := by
    rw [main_exitCode]; split <;> simp_all
  have hexit0 : (main cfg http).exitCode = 0 ↔ ¬ 0 < (main cfg http).failed := by
    rw [main_exitCode]; split <;> simp_all
  refine ⟨hexit1.trans hpos, hexit0.trans ?_⟩
  rw [hpos]
  push_neg
  rfl

/-- Claim C2: test 3 (per-call bot token) is Skipped (`None`) exactly when no
credential is configured (`BOT_TOKEN` empty), and in that case it issues no
HTTP request at all. -/
theorem c2_skip_iff_no_token (cfg : Config) (http : Request → HttpOutcome) :
    ((test_telegram_with_bot_token cfg http).result = none ↔ cfg.BOT_TOKEN = "")
    ∧ ((test_telegram_with_bot_token cfg http).result = none →
        (test_telegram_with_bot_token cfg http).requests = []) := by
  have hreq := test_bot_token_requests cfg http
  have hres := test_bot_token_result cfg http
  by_cases hb : cfg.BOT_TOKEN = ""
  · rw [hres, hreq]
    simp [hb]
  · rw [hres, hreq]
    simp [hb, sendResultOf_ne_none]

/-- Claim C3: every run executes the four test cases exactly once, in the
declared order, records one tri-state outcome per case, and the Run Summary
counts satisfy passed + failed + skipped = 4. -/
theorem c3_four_cases_partition (cfg : Config) (http : Request → HttpOutcome) :
    (main cfg http).results =
      [("Basic Telegram", (test_basic_telegram cfg http).result),
       ("Telegram with Keyboard", (test_telegram_with_keyboard cfg http).result),
       ("Telegram with Bot Token", (test_telegram_with_bot_token cfg http).result),
       ("Health Check", (test_health_check cfg http).result)]
    ∧ (main cfg http).results.length = 4
    ∧ (∀ r ∈ (main cfg http).results,
         r.2 = some true ∨ r.2 = some false ∨ r.2 = none)
    ∧ (main cfg http).passed + (main cfg http).failed + (main cfg http).skipped = 4 := by
  refine ⟨rfl, rfl, ?_, ?_⟩
  · intro r _
    rcases r with ⟨n, rr⟩
    rcases rr with _ | b
    · right; right; rfl
    · cases b
      · right; left; rfl
      · left; rfl
  · calc (main cfg http).passed + (main cfg http).failed + (main cfg http).skipped
        = (main cfg http).results.countP (fun r => r.2 == some true)
          + (main cfg http).results.countP (fun r => r.2 == some false)
          + (main cfg http).results.countP (fun r => r.2 == none) := rfl
      _ = (main cfg http).results.length := countP_tristate _
      _ = 4 := rfl

/-- Claim C9: a credential configured as the empty string behaves like an
absent one: with the environment variable unset or set to `""`, `BOT_TOKEN`
resolves to its default `""`, test 3 is Skipped with no HTTP call, and the
test issues its request exactly when the token is non-empty. -/
theorem c9_empty_token_like_absent (env : String → Option String) (cfg : Config)
    (http : Request → HttpOutcome) :
    ((env "TELEGRAM_BOT_TOKEN" = none ∨ env "TELEGRAM_BOT_TOKEN" = some "") →
       (loadConfig env).BOT_TOKEN = ""
       ∧ (test_telegram_with_bot_token (loadConfig env) http).result = none
       ∧ (test_telegram_with_bot_token (loadConfig env) http).requests = [])
    ∧ ((test_telegram_with_bot_token cfg http).requests = [botTokenReq cfg]
        ↔ cfg.BOT_TOKEN ≠ "") := by
  constructor
  · intro h
    have hb : (loadConfig env).BOT_TOKEN = "" := by
      rcases h with h | h <;> simp [loadConfig, getenv, h]
    exact ⟨hb, by simp [test_telegram_with_bot_token, hb],
           by simp [test_telegram_with_bot_token, hb]⟩
  · rw [test_bot_token_requests]
    by_cases hb : cfg.BOT_TOKEN = "" <;> simp [hb]

/-- Claim C4: for every notification-send test case, an HTTP 200 or 201
response whose body parses as JSON is classified Passed, and the parsed body
is printed (test 3 provided it runs, i.e. a token is configured). -/
theorem c4_accepted_status_passes (cfg : Config) (http : Request → HttpOutcome)
    (response : Response) (v : JsonVal)
    (hhttp : ∀ r, http r = HttpOutcome.ok response)
    (hstatus : response.status_code ∈ [200, 201])
    (hjson : response.json = some v) :
    ((test_basic_telegram cfg http).result = some true
       ∧ OutLine.jsonDump v ∈ (test_basic_telegram cfg http).output)
    ∧ ((test_telegram_with_keyboard cfg http).result = some true
       ∧ OutLine.jsonDump v ∈ (test_telegram_with_keyboard cfg http).output)
    ∧ (cfg.BOT_TOKEN ≠ "" →
       (test_telegram_with_bot_token cfg http).result = some true
       ∧ OutLine.jsonDump v ∈ (test_telegram_with_bot_token cfg http).output) := by
  refine ⟨⟨?_, ?_⟩, ⟨?_, ?_⟩, fun hb => ⟨?_, ?_⟩⟩
  · rw [test_basic_result, hhttp]
    simp [sendResultOf, hstatus, hjson]
  · simp [test_basic_telegram, hhttp, hstatus, hjson]
  · rw [test_keyboard_result, hhttp]
    simp [sendResultOf, hstatus, hjson]
  · simp [test_telegram_with_keyboard, hhttp, hstatus, hjson]
  · rw [test_bot_token_result, hhttp]
    simp [hb, sendResultOf, hstatus, hjson]
  · simp [test_telegram_with_bot_token, hb, hhttp, hstatus, hjson]

/-- A fixed configuration with a non-empty bot token, used as witness input. -/
def cfgTok : Config :=
  { SERVICE_URL := "http://svc.example", CHAT_ID := "42", BOT_TOKEN := "tok" }

/-- A 201 response carrying a well-formed JSON body. -/
def respCreated : Response :=
  { status_code := 201, text := "created",
    json := some (JsonVal.obj [("ok", JsonVal.bool true)]) }

/-- Witness for C4: at a concrete 201 response all three send tests pass. -/
theorem c4_accepted_status_passes_witness :
    (test_basic_telegram cfgTok (fun _ => HttpOutcome.ok respCreated)).result = some true
    ∧ (test_telegram_with_bot_token cfgTok
        (fun _ => HttpOutcome.ok respCreated)).result = some true := by
  have h := c4_accepted_status_passes cfgTok (fun _ => HttpOutcome.ok respCreated)
    respCreated (JsonVal.obj [("ok", JsonVal.bool true)]) (fun _ => rfl) (by decide) rfl
  exact ⟨h.1.1, (h.2.2 (by decide)).1⟩

/-- Claim C5: for every notification-send test case, a response with status
outside {200, 201} is classified Failed; the raw response text is printed and
no parsed-JSON dump is printed. -/
theorem c5_bad_status_fails (cfg : Config) (http : Request → HttpOutcome)
    (response : Response)
    (hhttp : ∀ r, http r = HttpOutcome.ok response)
    (hstatus : response.status_code ∉ [200, 201]) :
    ((test_basic_telegram cfg http).result = some false
       ∧ OutLine.respText response.text ∈ (test_basic_telegram cfg http).output
       ∧ ∀ v, OutLine.jsonDump v ∉ (test_basic_telegram cfg http).output)
    ∧ ((test_telegram_with_keyboard cfg http).result = some false
       ∧ OutLine.respText response.text ∈ (test_telegram_with_keyboard cfg http).output
       ∧ ∀ v, OutLine.jsonDump v ∉ (test_telegram_with_keyboard cfg http).output)
    ∧ (cfg.BOT_TOKEN ≠ "" →
       (test_telegram_with_bot_token cfg http).result = some false
       ∧ OutLine.respText response.text ∈ (test_telegram_with_bot_token cfg http).output
       ∧ ∀ v, OutLine.jsonDump v ∉ (test_telegram_with_bot_token cfg http).output) := by
  refine ⟨⟨?_, ?_, ?_⟩, ⟨?_, ?_, ?_⟩, fun hb => ⟨?_, ?_, ?_⟩⟩
  · rw [test_basic_result, hhttp]
    simp [sendResultOf, hstatus]
  · simp [test_basic_telegram, hhttp, hstatus]
  · simp [test_basic_telegram, hhttp, hstatus]
  · rw [test_keyboard_result, hhttp]
    simp [sendResultOf, hstatus]
  · simp [test_telegram_with_keyboard, hhttp, hstatus]
  · simp [test_telegram_with_keyboard, hhttp, hstatus]
  · rw [test_bot_token_result, hhttp]
    simp [hb, sendResultOf, hstatus]
  · simp [test_telegram_with_bot_token, hb, hhttp, hstatus]
  · simp [test_telegram_with_bot_token, hb, hhttp, hstatus]

/-- A 500 response with a plain-text error body. -/
def respError : Response :=
  { status_code := 500, text := "internal server error", json := none }

/-- Witness for C5: at a concrete 500 response the send tests fail and print
the raw text. -/
theorem c5_bad_status_fails_witness :
    (test_basic_telegram cfgTok (fun _ => HttpOutcome.ok respError)).result = some false
    ∧ OutLine.respText "internal server error"
        ∈ (test_basic_telegram cfgTok (fun _ => HttpOutcome.ok respError)).output := by
  have h := c5_bad_status_fails cfgTok (fun _ => HttpOutcome.ok respError)
    respError (fun _ => rfl) (by decide)
  exact ⟨h.1.1, h.1.2.1⟩

/-- Claim C6: the health check passes only on an HTTP 200 response; a timeout
(the transport raising instead of answering) yields Failed rather than
hanging, and `main` still prints the summary tally line. -/
theorem c6_health_only_200_timeout_fails (cfg : Config) (http : Request → HttpOutcome) :
    ((test_health_check cfg http).result = some true →
       ∃ response, http (healthReq cfg) = HttpOutcome.ok response
         ∧ response.status_code = 200)
    ∧ (∀ msg, http (healthReq cfg) = HttpOutcome.exn msg →
        (test_health_check cfg http).result = some false
        ∧ OutLine.errorMsg msg ∈ (test_health_check cfg http).output)
    ∧ OutLine.total (main cfg http).passed (main cfg http).failed (main cfg http).skipped
        ∈ (main cfg http).output := by
  refine ⟨?_, ?_, main_total_mem cfg http⟩
  · intro htrue
    rw [test_health_result] at htrue
    cases hh : http (healthReq cfg) with
    | ok response =>
      rw [hh] at htrue
      by_cases h : response.status_code = 200
      · exact ⟨response, rfl, h⟩
      · rw [healthResultOf] at htrue
        simp [h] at htrue
    | exn e =>
      rw [hh] at htrue
      simp [healthResultOf] at htrue
  · intro msg hmsg
    constructor
    · rw [test_health_result, hmsg]
      rfl
    · simp [test_health_check, hmsg]

/-- Claim C7: no exception crosses a test-case boundary: when the transport
raises on every request, each of the four cases (test 3 provided a token is
configured) yields Failed with the message printed, all four results are
still recorded, and `main` reaches the summary tally. -/
theorem c7_exceptions_contained (cfg : Config) (http : Request → HttpOutcome)
    (msg : String) (hhttp : ∀ r, http r = HttpOutcome.exn msg) :
    ((test_basic_telegram cfg http).result = some false
       ∧ OutLine.errorMsg msg ∈ (test_basic_telegram cfg http).output)
    ∧ ((test_telegram_with_keyboard cfg http).result = some false
       ∧ OutLine.errorMsg msg ∈ (test_telegram_with_keyboard cfg http).output)
    ∧ (cfg.BOT_TOKEN ≠ "" →
       (test_telegram_with_bot_token cfg http).result = some false
       ∧ OutLine.errorMsg msg ∈ (test_telegram_with_bot_token cfg http).output)
    ∧ ((test_health_check cfg http).result = some false
       ∧ OutLine.errorMsg msg ∈ (test_health_check cfg http).output)
    ∧ (main cfg http).results.length = 4
    ∧ OutLine.total (main cfg http).passed (main cfg http).failed (main cfg http).skipped
        ∈ (main cfg http).output := by
  refine ⟨⟨?_, ?_⟩, ⟨?_, ?_⟩, fun hb => ⟨?_, ?_⟩, ⟨?_, ?_⟩, rfl, main_total_mem cfg http⟩
  · rw [test_basic_result, hhttp]; rfl
  · simp [test_basic_telegram, hhttp]
  · rw [test_keyboard_result, hhttp]; rfl
  · simp [test_telegram_with_keyboard, hhttp]
  · rw [test_bot_token_result, hhttp]; simp [hb, sendResultOf]
  · simp [test_telegram_with_bot_token, hb, hhttp]
  · rw [test_health_result, hhttp]; rfl
  · simp [test_health_check, hhttp]

/-- Witness for C7: a transport that always raises, with a token configured. -/
theorem c7_exceptions_contained_witness :
    (test_basic_telegram cfgTok (fun _ => HttpOutcome.exn "timed out")).result = some false
    ∧ (test_health_check cfgTok (fun _ => HttpOutcome.exn "timed out")).result = some false
    ∧ (main cfgTok (fun _ => HttpOutcome.exn "timed out")).results.length = 4 := by
  have h := c7_exceptions_contained cfgTok (fun _ => HttpOutcome.exn "timed out")
    "timed out" (fun _ => rfl)
  exact ⟨h.1.1, h.2.2.2.1.1, h.2.2.2.2.1⟩

/-- Claim C10: for every test case, an acceptable status (200/201 for sends,
200 for the health check) whose body fails to parse as JSON is classified
Failed, not Passed: the parse happens inside the guarded region. -/
theorem c10_bad_json_fails (cfg : Config) (http : Request → HttpOutcome)
    (response : Response)
    (hhttp : ∀ r, http r = HttpOutcome.ok response)
    (hjson : response.json = none) :
    (response.status_code ∈ [200, 201] →
       (test_basic_telegram cfg http).result = some false
       ∧ (test_telegram_with_keyboard cfg http).result = some false
       ∧ (cfg.BOT_TOKEN ≠ "" →
           (test_telegram_with_bot_token cfg http).result = some false))
    ∧ (response.status_code = 200 →
       (test_health_check cfg http).result = some false) := by
  constructor
  · intro hstatus
    refine ⟨?_, ?_, fun hb => ?_⟩
    · rw [test_basic_result, hhttp]
      simp [sendResultOf, hstatus, hjson]
    · rw [test_keyboard_result, hhttp]
      simp [sendResultOf, hstatus, hjson]
    · rw [test_bot_token_result, hhttp]
      simp [hb, sendResultOf, hstatus, hjson]
  · intro hstatus
    rw [test_health_result, hhttp]
    simp [healthResultOf, hstatus, hjson]

/-- A 200 response whose body is not JSON. -/
def respNotJson : Response :=
  { status_code := 200, text := "OK but not json", json := none }

/-- Witness for C10: at a concrete 200 non-JSON response, the basic send test
and the health check both fail. -/
theorem c10_bad_json_fails_witness :
    (test_basic_telegram cfgTok (fun _ => HttpOutcome.ok respNotJson)).result = some false
    ∧ (test_health_check cfgTok (fun _ => HttpOutcome.ok respNotJson)).result = some false := by
  have h := c10_bad_json_fails cfgTok (fun _ => HttpOutcome.ok respNotJson)
    respNotJson (fun _ => rfl) rfl
  exact ⟨(h.1 (by decide)).1, h.2 rfl⟩

/-- Claim C8: with no credential configured and a healthy service — every
POST answered with an acceptable status and a JSON body, the health GET
answered 200 with a JSON body — the run yields 3 Passed, 0 Failed, 1 Skipped
and exit code 0. -/
theorem c8_healthy_run_scenario (cfg : Config) (http : Request → HttpOutcome)
    (hbot : cfg.BOT_TOKEN = "")
    (hpost : ∀ url payload tmo, ∃ response v,
        http (Request.post url payload tmo) = HttpOutcome.ok response
        ∧ response.status_code ∈ [200, 201] ∧ response.json = some v)
    (hget : ∀ url tmo, ∃ response v,
        http (Request.get url tmo) = HttpOutcome.ok response
        ∧ response.status_code = 200 ∧ response.json = some v) :
    (main cfg http).passed = 3 ∧ (main cfg http).failed = 0
    ∧ (main cfg http).skipped = 1 ∧ (main cfg http).exitCode = 0 := by
  obtain ⟨r1, v1, h1, hs1, hj1⟩ :=
    hpost (cfg.SERVICE_URL ++ "/notifications/send") (basicPayload cfg) 10
  obtain ⟨r2, v2, h2, hs2, hj2⟩ :=
    hpost (cfg.SERVICE_URL ++ "/notifications/send") (keyboardPayload cfg) 10
  obtain ⟨r4, v4, h4, hs4, hj4⟩ := hget (cfg.SERVICE_URL ++ "/health") 5
  have e1 : (test_basic_telegram cfg http).result = some true := by
    rw [test_basic_result]
    rw [show http (basicReq cfg) = HttpOutcome.ok r1 from h1]
    simp [sendResultOf, hs1, hj1]
  have e2 : (test_telegram_with_keyboard cfg http).result = some true := by
    rw [test_keyboard_result]
    rw [show http (keyboardReq cfg) = HttpOutcome.ok r2 from h2]
    simp [sendResultOf, hs2, hj2]
  have e3 : (test_telegram_with_bot_token cfg http).result = none := by
    simp [test_telegram_with_bot_token, hbot]
  have e4 : (test_health_check cfg http).result = some true := by
    rw [test_health_result]
    rw [show http (healthReq cfg) = HttpOutcome.ok r4 from h4]
    simp [healthResultOf, hs4, hj4]
  have hp : (main cfg http).passed = 3 := by
    rw [main_passed, main_results, e1, e2, e3, e4]; rfl
  have hf : (main cfg http).failed = 0 := by
    rw [main_failed, main_results, e1, e2, e3, e4]; rfl
  have hs : (main cfg http).skipped = 1 := by
    rw [main_skipped, main_results, e1, e2, e3, e4]; rfl
  refine ⟨hp, hf, hs, ?_⟩
  rw [main_exitCode, hf]
  rfl

/-- A healthy transport: every POST gets the 201 JSON response, every GET the
200 JSON health response. -/
def httpHealthy : Request → HttpOutcome
  | Request.post _ _ _ => HttpOutcome.ok respCreated
  | Request.get _ _ =>
    HttpOutcome.ok { status_code := 200, text := "healthy",
                     json := some (JsonVal.obj [("status", JsonVal.str "ok")]) }

/-- Witness for C8: the default configuration (no environment variables set)
against the healthy transport. -/
theorem c8_healthy_run_scenario_witness :
    (main (loadConfig (fun _ => none)) httpHealthy).passed = 3
    ∧ (main (loadConfig (fun _ => none)) httpHealthy).failed = 0
    ∧ (main (loadConfig (fun _ => none)) httpHealthy).skipped = 1
    ∧ (main (loadConfig (fun _ => none)) httpHealthy).exitCode = 0 :=
  c8_healthy_run_scenario (loadConfig (fun _ => none)) httpHealthy rfl
    (fun _ _ _ => ⟨respCreated, JsonVal.obj [("ok", JsonVal.bool true)],
      rfl, by decide, rfl⟩)
    (fun _ _ => ⟨{ status_code := 200, text := "healthy",
                   json := some (JsonVal.obj [("status", JsonVal.str "ok")]) },
      JsonVal.obj [("status", JsonVal.str "ok")], rfl, rfl, rfl⟩)

end NotifTest
